import Mathlib

/-!
Verification development for the workflow validator script
(.github/scripts/validate_workflow.py).

The YAML data model is embedded shallowly: parsed documents are trees of
YVal values, mappings are association lists in document order (PyYAML
dictionaries preserve insertion order and have unique keys).  External
effects (file system, yamllint, bash, the CPython compiler used for
python -c snippets) are modelled as fields of an Env record, so every
definition is an executable function of the document tree and the
environment.
-/

/-- Keys of a YAML mapping as produced by PyYAML: strings, or booleans
(PyYAML coerces the bare key on to the boolean True). -/
inductive YKey where
  | str (s : String)
  | bool (b : Bool)
deriving DecidableEq

/-- Parsed YAML values. -/
inductive YVal where
  | null
  | bool (b : Bool)
  | str (s : String)
  | int (n : Int)
  | list (elems : List YVal)
  | map (entries : List (YKey × YVal))

/-- A YAML mapping: association list in document order. -/
abbrev Ymap := List (YKey × YVal)

/-- Python str(key), used when a job name is spliced into a block path. -/
def YKey.pyStr : YKey → String
  | .str s => s
  | .bool b => if b then "True" else "False"

/-- dict.get(key) for a string key: first entry whose key is that string. -/
def Ymap.get (m : Ymap) (key : String) : Option YVal :=
  match m with
  | [] => none
  | (.str s, v) :: rest => if s == key then some v else Ymap.get rest key
  | _ :: rest => Ymap.get rest key

/-- Python membership test key in dict for a string key. -/
def hasStrKey (m : Ymap) (key : String) : Bool :=
  (Ymap.get m key).isSome

/-- dict lookup for the boolean key True (PyYAML coercion of on). -/
def Ymap.getTrue (m : Ymap) : Option YVal :=
  match m with
  | [] => none
  | (.bool true, v) :: _ => some v
  | _ :: rest => Ymap.getTrue rest

/-- Python equality between a YAML value and a string literal. -/
def yvalIsStr (s : String) (v : YVal) : Bool :=
  match v with
  | .str t => t == s
  | _ => false

/-- Does an optional YAML value hold a mapping (isinstance(v, dict))? -/
def isMapVal (v : Option YVal) : Bool :=
  match v with
  | some (.map _) => true
  | _ => false

/-- Sequential append of list results, modelling loops that extend an
accumulator (and list.flatMap, written out so lemmas stay elementary). -/
def concatMap {α β : Type} (f : α → List β) : List α → List β
  | [] => []
  | a :: rest => f a ++ concatMap f rest

/-- Python whitespace class for the \s regex atom (ASCII). -/
def pyWs (c : Char) : Bool :=
  c == ' ' || c == '\t' || c == '\n' || c == '\r' || c == '\x0b' || c == '\x0c'

/-- str.strip(): remove leading and trailing whitespace. -/
def pyStrip (s : String) : String :=
  String.mk (((s.toList.dropWhile pyWs).reverse.dropWhile pyWs).reverse)

/-- Is the first character list a leading segment of the second? -/
def leadsList (needle : List Char) (cs : List Char) : Bool :=
  match needle, cs with
  | [], _ => true
  | _ :: _, [] => false
  | n :: ns, c :: rest => n == c && leadsList ns rest

/-- Does the needle occur contiguously inside the haystack? -/
def infixList (needle : List Char) (cs : List Char) : Bool :=
  leadsList needle cs ||
    match cs with
    | [] => false
    | _ :: rest => infixList needle rest

/-- Substring containment, Python needle in haystack. -/
def containsSub (needle haystack : String) : Bool :=
  infixList needle.toList haystack.toList

/-- ASCII lowercase of one character (str.lower on the ASCII range). -/
def pyLowerChar (c : Char) : Char :=
  if 'A' <= c && c <= 'Z' then Char.ofNat (c.toNat + 32) else c

/-- str.lower of a string (ASCII). -/
def pyLower (s : String) : String :=
  String.mk (s.toList.map pyLowerChar)

/-- normalize_shell_name (validate_workflow.py lines 121-129), on the
string case; every caller has already checked isinstance(shell, str). -/
def normalize_shell_name (shell : String) : String :=
  let lowered := pyStrip (pyLower shell)
  if containsSub "pwsh" lowered || containsSub "powershell" lowered then "pwsh"
  else if lowered == "bash" || lowered == "sh" || containsSub "bash" lowered then "bash"
  else "unknown"

/-- read_run_default_shell (lines 132-142): defaults.run.shell when it is
a string, normalized; None otherwise. -/
def read_run_default_shell (node : Ymap) : Option String :=
  match Ymap.get node "defaults" with
  | some (.map defaults) =>
    match Ymap.get defaults "run" with
    | some (.map runDefaults) =>
      match Ymap.get runDefaults "shell" with
      | some (.str shell) => some (normalize_shell_name shell)
      | _ => none
    | _ => none
  | _ => none

/-- Consume a literal character sequence from the front, or fail. -/
def dropLit (lit : List Char) (cs : List Char) : Option (List Char) :=
  match lit, cs with
  | [], rest => some rest
  | _ :: _, [] => none
  | l :: ls, c :: rest => if c == l then dropLit ls rest else none

/-- Consume the regex atom \s+ (one or more whitespace, greedy). -/
def dropWs1 (cs : List Char) : Option (List Char) :=
  match cs with
  | [] => none
  | c :: rest => if pyWs c then some (rest.dropWhile pyWs) else none

/-- Consume the regex atom \s* (any whitespace, greedy). -/
def dropWsStar (cs : List Char) : List Char :=
  cs.dropWhile pyWs

/-- Consume an identifier of shape [A-Za-z_][A-Za-z0-9_]* (greedy). -/
def takeIdent (cs : List Char) : Option (String × List Char) :=
  match cs with
  | [] => none
  | c :: rest =>
    if c.isAlpha || c == '_' then
      some (String.mk (c :: rest.takeWhile (fun d => d.isAlphanum || d == '_')),
            rest.dropWhile (fun d => d.isAlphanum || d == '_'))
    else none

/-- MATRIX_EXPR_RE (lines 28-30) as a full-string match: a literal
single-placeholder GitHub expression referencing a matrix key.  Returns
the captured key when the whole string has that shape. -/
def matrixExprMatch (s : String) : Option String := do
  let r1 ← dropLit "$\x7b\x7b".toList s.toList
  let r2 ← dropLit "matrix.".toList (dropWsStar r1)
  let (key, r3) ← takeIdent r2
  let r4 ← dropLit "\x7d\x7d".toList (dropWsStar r3)
  if r4.isEmpty then some key else none

/-- Append-if-new dedup used at the end of several resolvers (the
value not in unique idiom, preserving first-occurrence order). -/
def pyDedupAux (seen : List String) : List String → List String
  | [] => []
  | s :: rest =>
    if seen.contains s then pyDedupAux seen rest
    else s :: pyDedupAux (seen ++ [s]) rest

/-- First-occurrence-order dedup of a string list. -/
def pyDedup (values : List String) : List String :=
  pyDedupAux [] values

/-- resolve_matrix_values (lines 145-172): string values for a matrix key,
from both the direct entry and strategy.matrix.include, deduplicated. -/
def resolve_matrix_values (strategy : Option YVal) (key : String) : List String :=
  match strategy with
  | some (.map strat) =>
    match Ymap.get strat "matrix" with
    | some (.map matrix) =>
      let direct :=
        match Ymap.get matrix key with
        | some (.list xs) =>
          xs.filterMap (fun x => match x with | .str s => some s | _ => none)
        | some (.str s) => [s]
        | _ => []
      let fromInclude :=
        match Ymap.get matrix "include" with
        | some (.list entries) =>
          entries.filterMap (fun e =>
            match e with
            | .map entry =>
              match Ymap.get entry key with
              | some (.str s) => some s
              | _ => none
            | _ => none)
        | _ => []
      pyDedup (direct ++ fromInclude)
    | _ => []
  | _ => []

/-- append_label closure inside resolve_runs_on_labels (lines 181-196):
non-strings become unknown; a literal single-placeholder matrix
expression expands to its matrix values (unknown when there are none);
every other string is kept verbatim as a label. -/
def append_label (strategy : Option YVal) (v : Option YVal) : List String :=
  match v with
  | some (.str s) =>
    match matrixExprMatch (pyStrip s) with
    | some key =>
      let vs := resolve_matrix_values strategy key
      if vs.isEmpty then ["unknown"] else vs
    | none => [s]
  | _ => ["unknown"]

/-- resolve_runs_on_labels (lines 175-211). -/
def resolve_runs_on_labels (job : Ymap) : List String :=
  let strategy := Ymap.get job "strategy"
  let labels :=
    match Ymap.get job "runs-on" with
    | some (.list vs) => concatMap (fun v => append_label strategy (some v)) vs
    | other => append_label strategy other
  pyDedup (if labels.isEmpty then ["unknown"] else labels)

/-- Per-label shell classification inside infer_runner_default_shell
(lines 217-223): case-insensitive substring matching on the label. -/
def shell_for_label (label : String) : String :=
  let lowered := pyLower label
  if containsSub "windows" lowered then "pwsh"
  else if containsSub "ubuntu" lowered || containsSub "linux" lowered
       || containsSub "macos" lowered then "bash"
  else "unknown"

/-- infer_runner_default_shell (lines 214-230): the single inferred shell
when all labels agree, unknown for mixed or unresolved runners. -/
def infer_runner_default_shell (job : Ymap) : String :=
  let inferred := pyDedup ((resolve_runs_on_labels job).map shell_for_label)
  if inferred.length == 1 then inferred.headD "unknown" else "unknown"

/-- The per-job default dialect of extract_job_run_blocks (lines 236,
245-248): the workflow defaults.run.shell when declared (a string), else
the runner-inferred shell; overridden by the job defaults.run.shell. -/
def job_default_dialect (data : Ymap) (job : Ymap) : String :=
  let inherited :=
    match read_run_default_shell data with
    | some s => s
    | none => infer_runner_default_shell job
  match read_run_default_shell job with
  | some s => s
  | none => inherited

/-- The dialect recorded for one step (lines 261-263): the normalized
step-level shell when it is a string, else the job default. -/
def step_dialect (data : Ymap) (job : Ymap) (step : Ymap) : String :=
  match Ymap.get step "shell" with
  | some (.str s) => normalize_shell_name s
  | _ => job_default_dialect data job

/-- Block path string jobs.name.steps[index]. -/
def blockPath (jobName : YKey) (index : Nat) : String :=
  "jobs." ++ jobName.pyStr ++ ".steps[" ++ toString index ++ "]"

/-- extract_job_run_blocks (lines 233-267): every run step of every
mapping-shaped job, as (block path, dialect, script) triples. -/
def extract_job_run_blocks (data : Ymap) : List (String × String × String) :=
  match Ymap.get data "jobs" with
  | some (.map jobs) =>
    concatMap (fun kv =>
      match kv.2 with
      | YVal.map job =>
        match Ymap.get job "steps" with
        | some (.list steps) =>
          concatMap (fun is =>
            match is.2 with
            | YVal.map step =>
              match Ymap.get step "run" with
              | some (.str script) =>
                [(blockPath kv.1 is.1, step_dialect data job step, script)]
              | _ => []
            | _ => []) steps.enum
        | _ => []
      | _ => []) jobs
  | _ => []

/-- Outcome of reading and parsing one path (Path.exists plus
yaml.safe_load): the file may be absent, unparsable, or parsed to a
value (None for an empty document). -/
inductive LoadOutcome where
  | missing
  | parseError (msg : String)
  | parsed (v : YVal)

/-- The external environment the script runs in: availability and
outcomes of yamllint, bash -n, the CPython compile() used on python -c
snippets, and the file system. -/
structure Env where
  yamllintInstalled : Bool
  yamllintFails : Bool
  yamllintOutput : String
  bashReady : Bool
  bashCheck : String → Option String
  pyCompile : String → Option (String × Nat × Nat)
  fs : String → LoadOutcome

/-- Diagnostics, one constructor per distinct failure message of the
script, carrying the data spliced into that message. -/
inductive Diag where
  | fileDoesNotExist (path : String)
  | yamlParseError (path : String) (msg : String)
  | expectedMappingAtRoot (path : String)
  | noFilesForYamllint
  | yamllintNotInstalled
  | yamllintFailed (output : String)
  | bashSyntaxError (path : String) (msg : String)
  | invalidPythonC (path : String) (msg : String) (line : Nat) (col : Nat)
  | powershellTrap (path : String) (line : Nat)
  | expectedOnMapping (path : String)
  | noPullRequest (path : String)
  | mustDefinePushTag (path : String)
  | pushMustBeMapping (path : String)
  | pushTagsMustIncludeVStar (path : String)
  | mustDefineWorkflowDispatch (path : String)
  | expectedJobsMapping (path : String)
  | missingRequiredJobs (path : String) (missing : List String)
  | smokeMustBeMapping (path : String)
  | smokeMustNeedResolveTag (path : String)
  | buildMustBeMapping (path : String)
  | buildMustNeedResolveTagSmoke (path : String)
  | buildMatrixMissingTargets (path : String) (missing : List (String × String))
  | publishMustBeMapping (path : String)
  | publishMustNeedResolveTagBuild (path : String)
  | publishMustIncludeGhRelease (path : String)
  | missingMacSigningGate (path : String)
  | missingSignStep (path : String)
  | signStepMustBeGated (path : String)
  | missingNamedStep (path : String) (name : String)
  | namedStepMustBeGated (path : String) (name : String)
deriving DecidableEq

/-- Skip ahead to just after the first closing brace pair of a GitHub
expression; none when the remainder has no such pair. -/
def pastExprClose (cs : List Char) : Option (List Char) :=
  match cs with
  | '\x7d' :: '\x7d' :: rest => some rest
  | _ :: rest => pastExprClose rest
  | [] => none

/-- Fuel-indexed body of sanitize_for_bash: replace each GHA_EXPR_RE
match (a dollar-brace expression up to the nearest closing pair) with
the literal GHA_EXPR.  The fuel only bounds recursion; callers pass the
input length, which each step strictly decreases. -/
def sanitizeAux (fuel : Nat) (cs : List Char) : List Char :=
  match fuel with
  | 0 => cs
  | Nat.succ f =>
    match cs with
    | [] => []
    | '$' :: '\x7b' :: '\x7b' :: rest =>
      (match pastExprClose rest with
       | some after => "GHA_EXPR".toList ++ sanitizeAux f after
       | none => '$' :: sanitizeAux f ('\x7b' :: '\x7b' :: rest))
    | c :: rest => c :: sanitizeAux f rest

/-- sanitize_for_bash (lines 278-279): GHA_EXPR_RE.sub on the script. -/
def sanitize_for_bash (script : String) : String :=
  String.mk (sanitizeAux script.toList.length script.toList)

/-- check_bash_syntax_errors (lines 282-295): nothing when bash is unavailable;
otherwise one diagnostic when bash -n rejects the sanitized script. -/
def check_bash_syntax_errors (env : Env) (script : String) (p : String) : List Diag :=
  if env.bashReady then
    match env.bashCheck (sanitize_for_bash script) with
    | some msg => [Diag.bashSyntaxError p msg]
    | none => []
  else []

/-- One attempt of PYTHON_C_RE at the head of the text: python, an
optional 3, whitespace, -c, whitespace, a quote, then the shortest code
run ending at the next identical quote.  Returns the captured code and
the rest of the text after the match. -/
def pcMatchAt (cs : List Char) : Option (String × List Char) := do
  let r1 ← dropLit "python".toList cs
  let r2 := match r1 with
            | '3' :: rest => rest
            | _ => r1
  let r3 ← dropWs1 r2
  let r4 ← dropLit "-c".toList r3
  let r5 ← dropWs1 r4
  match r5 with
  | q :: r6 =>
    if q == '\x27' || q == '"' then
      match r6.dropWhile (fun c => c != q) with
      | _ :: r7 => some (String.mk (r6.takeWhile (fun c => c != q)), r7)
      | [] => none
    else none
  | [] => none

/-- Fuel-indexed finditer for PYTHON_C_RE: scan left to right, resuming
after the end of each match.  Fuel bounds recursion; callers pass the
input length, which each step strictly decreases. -/
def pcFindAllAux (fuel : Nat) (cs : List Char) : List String :=
  match fuel with
  | 0 => []
  | Nat.succ f =>
    match cs with
    | [] => []
    | _ :: rest =>
      match pcMatchAt cs with
      | some (code, after) => code :: pcFindAllAux f after
      | none => pcFindAllAux f rest

/-- All python -c code captures in the script, in match order. -/
def pcFindAll (script : String) : List String :=
  pcFindAllAux script.toList.length script.toList

/-- check_python_c_snippets (lines 298-308): one diagnostic per embedded
python -c snippet the compiler rejects, carrying its message, line and
column. -/
def check_python_c_snippets (env : Env) (script : String) (p : String) : List Diag :=
  (pcFindAll script).filterMap (fun code =>
    match env.pyCompile code with
    | some (msg, line, col) => some (Diag.invalidPythonC p msg line col)
    | none => none)

/-- Consume a literal character sequence case-insensitively (the pattern
is compiled with IGNORECASE); lit is given lowercased. -/
def dropCI (lit : List Char) (cs : List Char) : Option (List Char) :=
  match lit, cs with
  | [], rest => some rest
  | _ :: _, [] => none
  | l :: ls, c :: rest => if pyLowerChar c == l then dropCI ls rest else none

/-- One attempt of POWERSHELL_TESTPATH_AND_RE (lines 31-34) at the head
of the text: Test-Path, whitespace, a parenthesized argument, -and, then
a second Test-Path with an opening parenthesis, all case-insensitive.
The lookbehind before the second Test-Path is vacuous here because the
preceding character was consumed by a whitespace-plus atom. -/
def psMatchAt (cs : List Char) : Bool :=
  (do
    let r1 ← dropCI "test-path".toList cs
    let r2 ← dropWs1 r1
    let r3 ← dropLit ['('] r2
    let r4 ←
      match (r3.dropWhile (fun c => c != ')')) with
      | ')' :: rest => some rest
      | _ => none
    let r5 ← dropWs1 r4
    let r6 ← dropCI "-and".toList r5
    let r7 ← dropWs1 r6
    let r8 ← dropCI "test-path".toList r7
    let r9 ← dropWs1 r8
    let _ ← dropLit ['('] r9
    some ()).isSome

/-- re.search over one line, honoring the leading lookbehind: a match may
start anywhere whose preceding character is not an opening parenthesis. -/
def psSearchAux (prev : Option Char) (cs : List Char) : Bool :=
  match cs with
  | [] => false
  | c :: rest =>
    ((prev != some '(') && psMatchAt (c :: rest)) || psSearchAux (some c) rest

/-- Line-break characters recognized by str.splitlines. -/
def lineBreakChar (c : Char) : Bool :=
  c == '\n' || c == '\r' || c == '\x0b' || c == '\x0c' || c == '\x1c' ||
  c == '\x1d' || c == '\x1e' || c == '\x85' || c == '\u2028' || c == '\u2029'

/-- str.splitlines: break on line boundaries, treating a carriage-return
line-feed pair as one boundary, with no trailing empty line. -/
def pySplitlinesAux (acc : List Char) (cs : List Char) : List String :=
  match cs with
  | [] => if acc.isEmpty then [] else [String.mk acc.reverse]
  | '\r' :: '\n' :: rest => String.mk acc.reverse :: pySplitlinesAux [] rest
  | c :: rest =>
    if lineBreakChar c then String.mk acc.reverse :: pySplitlinesAux [] rest
    else pySplitlinesAux (c :: acc) rest

/-- str.splitlines of a script. -/
def pySplitlines (script : String) : List String :=
  pySplitlinesAux [] script.toList

/-- check_powershell_command_mode_traps (lines 311-319): one diagnostic
with its 1-based line number for every line the pattern matches. -/
def check_powershell_command_mode_traps (script : String) (p : String) : List Diag :=
  (pySplitlines script).enum.filterMap (fun il =>
    if psSearchAux none il.2.toList then some (Diag.powershellTrap p (il.1 + 1))
    else none)

/-- is_bash_shell (lines 270-271). -/
def is_bash_shell (shell : String) : Bool :=
  normalize_shell_name shell == "bash"

/-- is_pwsh_shell (lines 274-275). -/
def is_pwsh_shell (shell : String) : Bool :=
  normalize_shell_name shell == "pwsh"

/-- normalize_needs (lines 322-327): the set of job names a job needs;
membership below is checked in the resulting list. -/
def normalize_needs (v : Option YVal) : List String :=
  match v with
  | some (.str s) => [s]
  | some (.list xs) =>
    xs.filterMap (fun x => match x with | .str s => some s | _ => none)
  | _ => []

/-- has_uses_step (lines 330-341): some mapping step whose uses string
starts, case-insensitively, with the given action name. -/
def has_uses_step (job : Ymap) (action : String) : Bool :=
  match Ymap.get job "steps" with
  | some (.list steps) =>
    steps.any (fun s =>
      match s with
      | .map step =>
        match Ymap.get step "uses" with
        | some (.str uses) => leadsList (pyLower action).toList (pyLower uses).toList
        | _ => false
      | _ => false)
  | _ => false

/-- find_step (lines 356-367) called with step_id: the first mapping step
whose id equals the given string. -/
def find_step_by_id (job : Ymap) (sid : String) : Option Ymap :=
  match Ymap.get job "steps" with
  | some (.list steps) =>
    steps.findSome? (fun s =>
      match s with
      | .map step =>
        match Ymap.get step "id" with
        | some (.str t) => if t == sid then some step else none
        | _ => none
      | _ => none)
  | _ => none

/-- find_step (lines 356-367) called with step_name: the first mapping
step whose name equals the given string. -/
def find_step_by_name (job : Ymap) (nameWanted : String) : Option Ymap :=
  match Ymap.get job "steps" with
  | some (.list steps) =>
    steps.findSome? (fun s =>
      match s with
      | .map step =>
        match Ymap.get step "name" with
        | some (.str t) => if t == nameWanted then some step else none
        | _ => none
      | _ => none)
  | _ => none

/-- find_on_section (lines 113-118): the on entry, falling back to the
boolean key True that PyYAML may coerce the bare on into. -/
def find_on_section (data : Ymap) : Option YVal :=
  match Ymap.get data "on" with
  | some v => some v
  | none => Ymap.getTrue data

/-- Final path component accumulator: restart at every separator. -/
def pyPathNameAux (acc : List Char) : List Char → List Char
  | [] => acc
  | '/' :: rest => pyPathNameAux [] rest
  | c :: rest => pyPathNameAux (acc ++ [c]) rest

/-- Path.name: the final component of a (posix) path string. -/
def pyPathName (p : String) : String :=
  String.mk (pyPathNameAux [] p.toList)

/-- validate_release_trigger_rules (lines 441-470): root-cause diagnostic
and stop when on is not a mapping; otherwise the pull-request ban, the
push trigger (whose absence or non-mapping shape stops the remaining
trigger checks), the v-star tag glob, and workflow_dispatch. -/
def validate_release_trigger_rules (p : String) (data : Ymap) : List Diag :=
  if pyPathName p != "release-gui.yml" then [] else
  match find_on_section data with
  | some (.map onSection) =>
    let prErrs :=
      if hasStrKey onSection "pull_request" then [Diag.noPullRequest p] else []
    if !hasStrKey onSection "push" then prErrs ++ [Diag.mustDefinePushTag p]
    else
      match Ymap.get onSection "push" with
      | some (.map pushSection) =>
        let tagErrs :=
          match Ymap.get pushSection "tags" with
          | some (.list tags) =>
            if tags.any (yvalIsStr "v*") then []
            else [Diag.pushTagsMustIncludeVStar p]
          | _ => [Diag.pushTagsMustIncludeVStar p]
        let wdErrs :=
          if hasStrKey onSection "workflow_dispatch" then []
          else [Diag.mustDefineWorkflowDispatch p]
        prErrs ++ tagErrs ++ wdErrs
      | _ => prErrs ++ [Diag.pushMustBeMapping p]
  | _ => [Diag.expectedOnMapping p]

/-- sorted(required_jobs) for the release job-shape check. -/
def requiredReleaseJobs : List String :=
  ["build_package", "publish", "resolve_tag", "smoke"]

/-- sorted(expected_matrix) of build-package targets (lines 404-408). -/
def expectedMatrixTargets : List (String × String) :=
  [("macos-14", "aarch64-apple-darwin"),
   ("ubuntu-22.04", "x86_64-unknown-linux-gnu"),
   ("windows-latest", "x86_64-pc-windows-msvc")]

/-- Smoke-job clause of validate_release_job_shape (lines 389-394). -/
def smoke_job_errors (p : String) (jobs : Ymap) : List Diag :=
  match Ymap.get jobs "smoke" with
  | some (.map smokeJob) =>
    if (normalize_needs (Ymap.get smokeJob "needs")).contains "resolve_tag" then []
    else [Diag.smokeMustNeedResolveTag p]
  | _ => [Diag.smokeMustBeMapping p]

/-- Build-package clause of validate_release_job_shape (lines 396-424). -/
def build_job_errors (p : String) (jobs : Ymap) : List Diag :=
  match Ymap.get jobs "build_package" with
  | some (.map buildJob) =>
    let needs := normalize_needs (Ymap.get buildJob "needs")
    let needErrs :=
      if needs.contains "resolve_tag" && needs.contains "smoke" then []
      else [Diag.buildMustNeedResolveTagSmoke p]
    let includeEntries :=
      match Ymap.get buildJob "strategy" with
      | some (.map strategy) =>
        match Ymap.get strategy "matrix" with
        | some (.map matrix) => Ymap.get matrix "include"
        | _ => none
      | _ => none
    let actual : List (String × String) :=
      match includeEntries with
      | some (.list entries) =>
        entries.filterMap (fun e =>
          match e with
          | .map entry =>
            match Ymap.get entry "os", Ymap.get entry "target" with
            | some (.str osName), some (.str target) => some (osName, target)
            | _, _ => none
          | _ => none)
      | _ => []
    let missingTargets :=
      expectedMatrixTargets.filter (fun t => !actual.contains t)
    needErrs ++
      (if missingTargets.isEmpty then []
       else [Diag.buildMatrixMissingTargets p missingTargets])
  | _ => [Diag.buildMustBeMapping p]

/-- Publish clause of validate_release_job_shape (lines 426-436). -/
def publish_job_errors (p : String) (jobs : Ymap) : List Diag :=
  match Ymap.get jobs "publish" with
  | some (.map publishJob) =>
    let needs := normalize_needs (Ymap.get publishJob "needs")
    (if needs.contains "resolve_tag" && needs.contains "build_package" then []
     else [Diag.publishMustNeedResolveTagBuild p]) ++
    (if has_uses_step publishJob "softprops/action-gh-release" then []
     else [Diag.publishMustIncludeGhRelease p])
  | _ => [Diag.publishMustBeMapping p]

/-- validate_release_job_shape (lines 370-438). -/
def validate_release_job_shape (p : String) (data : Ymap) : List Diag :=
  if pyPathName p != "release-gui.yml" then [] else
  match Ymap.get data "jobs" with
  | some (.map jobs) =>
    let missing := requiredReleaseJobs.filter (fun j => !hasStrKey jobs j)
    if !missing.isEmpty then [Diag.missingRequiredJobs p missing]
    else smoke_job_errors p jobs ++ build_job_errors p jobs ++ publish_job_errors p jobs
  | _ => [Diag.expectedJobsMapping p]

/-- Does a step conditional test the gate output for true (lines 500,
511)?  The literal is in the step if string. -/
def signGateCond (step : Ymap) : Bool :=
  match Ymap.get step "if" with
  | some (.str cond) =>
    containsSub "steps.mac_signing.outputs.enabled == \x27true\x27" cond
  | _ => false

/-- Signing-step clause of the macOS rules (lines 493-503). -/
def sign_step_errors (p : String) (buildJob : Ymap) : List Diag :=
  match find_step_by_name buildJob "Sign, notarize, and verify macOS artifacts" with
  | none => [Diag.missingSignStep p]
  | some signStep =>
    if signGateCond signStep then [] else [Diag.signStepMustBeGated p]

/-- Named-step clause of the macOS rules (lines 505-514), for one of the
asset steps. -/
def named_step_errors (p : String) (buildJob : Ymap) (stepName : String) : List Diag :=
  match find_step_by_name buildJob stepName with
  | none => [Diag.missingNamedStep p stepName]
  | some step =>
    if signGateCond step then [] else [Diag.namedStepMustBeGated p stepName]

/-- validate_release_macos_signing_rules (lines 473-516): silently empty
when jobs or build_package is not a mapping; one diagnostic and stop when
the gate step is absent; otherwise the three named-step clauses in
sequence. -/
def validate_release_macos_signing_rules (p : String) (data : Ymap) : List Diag :=
  if pyPathName p != "release-gui.yml" then [] else
  match Ymap.get data "jobs" with
  | some (.map jobs) =>
    match Ymap.get jobs "build_package" with
    | some (.map buildJob) =>
      match find_step_by_id buildJob "mac_signing" with
      | none => [Diag.missingMacSigningGate p]
      | some _ =>
        sign_step_errors p buildJob ++
        named_step_errors p buildJob "Collect release assets" ++
        named_step_errors p buildJob "Upload release assets"
    | _ => []
  | _ => []

/-- load_yaml (lines 97-110): a missing file, a parse error, and a
non-mapping root each give one diagnostic and no tree; an empty document
(safe_load returning None) gives an empty mapping and no diagnostic. -/
def load_yaml (env : Env) (p : String) : Option Ymap × List Diag :=
  match env.fs p with
  | .missing => (none, [Diag.fileDoesNotExist p])
  | .parseError msg => (none, [Diag.yamlParseError p msg])
  | .parsed v =>
    match v with
    | .null => (some [], [])
    | .map m => (some m, [])
    | _ => (none, [Diag.expectedMappingAtRoot p])

/-- The per-block dispatch of validate_workflow_file (lines 529-536):
bash blocks get the bash syntax check and the python -c snippet check,
pwsh blocks get the command-mode-trap check. -/
def run_block_checks (env : Env) (p : String) (b : String × String × String) : List Diag :=
  let bp := p ++ ":" ++ b.1
  (if is_bash_shell b.2.1 then
     check_bash_syntax_errors env b.2.2 bp ++ check_python_c_snippets env b.2.2 bp
   else []) ++
  (if is_pwsh_shell b.2.1 then check_powershell_command_mode_traps b.2.2 bp
   else [])

/-- validate_workflow_file (lines 519-538): loader diagnostics stop the
document; otherwise the three release validators then the per-block
checks, in source order. -/
def validate_workflow_file (env : Env) (p : String) : List Diag :=
  match load_yaml env p with
  | (none, errs) => errs
  | (some data, errs) =>
    errs ++ validate_release_trigger_rules p data
         ++ validate_release_job_shape p data
         ++ validate_release_macos_signing_rules p data
         ++ concatMap (run_block_checks env p) (extract_job_run_blocks data)

/-- run_yamllint (lines 58-69): a no-files message, a not-installed
message, or the lint failure output, each as a would-be failure entry. -/
def run_yamllint (env : Env) (paths : List String) : List Diag :=
  if paths.isEmpty then [Diag.noFilesForYamllint]
  else if !env.yamllintInstalled then [Diag.yamllintNotInstalled]
  else if env.yamllintFails then [Diag.yamllintFailed env.yamllintOutput]
  else []

/-- The per-document loop of main (lines 564-565). -/
def validate_all (env : Env) : List String → List Diag
  | [] => []
  | p :: rest => validate_workflow_file env p ++ validate_all env rest

/-- The failure list main accumulates (lines 562-565): the yamllint
result followed by every document's diagnostics. -/
def main_failures (env : Env) (paths : List String) : List Diag :=
  run_yamllint env paths ++ validate_all env paths

/-- main (lines 541-574) as a function of the discovered workflow paths
(path discovery itself walks the file system): exit status 2 with no
inputs, 1 with any accumulated failure, 0 otherwise. -/
def main_exit (env : Env) (paths : List String) : Nat :=
  if paths.isEmpty then 2
  else if (main_failures env paths).isEmpty then 0
  else 1

/-- The dialect resolution the specification states, written directly
from its words: step-level explicit shell, else job-level
defaults.run.shell, else workflow-level defaults.run.shell, else
inference from the runner labels of the job. -/
def resolved_dialect (data : Ymap) (job : Ymap) (step : Ymap) : String :=
  match Ymap.get step "shell" with
  | some (.str s) => normalize_shell_name s
  | _ =>
    match read_run_default_shell job with
    | some s => s
    | none =>
      match read_run_default_shell data with
      | some s => s
      | none => infer_runner_default_shell job

/-- Run-block extraction with the dialect of each step given by the
specification-side resolution, for comparison with the source one. -/
def extract_job_run_blocks_spec (data : Ymap) : List (String × String × String) :=
  match Ymap.get data "jobs" with
  | some (.map jobs) =>
    concatMap (fun kv =>
      match kv.2 with
      | YVal.map job =>
        match Ymap.get job "steps" with
        | some (.list steps) =>
          concatMap (fun is =>
            match is.2 with
            | YVal.map step =>
              match Ymap.get step "run" with
              | some (.str script) =>
                [(blockPath kv.1 is.1, resolved_dialect data job step, script)]
              | _ => []
            | _ => []) steps.enum
        | _ => []
      | _ => []) jobs
  | _ => []

/-- Does a diagnostic come from the python -c snippet check? -/
def Diag.isPythonC : Diag → Bool
  | .invalidPythonC _ _ _ _ => true
  | _ => false

/-- A job whose runs-on is an interpolation that is not a matrix
placeholder but mentions a runner OS in its expression text. -/
def c2_job : Ymap :=
  [(YKey.str "runs-on", YVal.str "$\x7b\x7b inputs.windows_runner \x7d\x7d")]

/-- A run script holding a python -c snippet that does not compile. -/
def c3_script : String := "python -c \x27def\x27"

/-- A document whose only job runs on windows (dialect pwsh) and whose
only step carries the broken python -c snippet. -/
def c3_data : Ymap :=
  [(YKey.str "jobs", YVal.map
     [(YKey.str "win", YVal.map
        [(YKey.str "runs-on", YVal.str "windows-latest"),
         (YKey.str "steps", YVal.list
           [YVal.map [(YKey.str "run", YVal.str c3_script)]])])])]

/-- An environment whose python compiler rejects every snippet and whose
file system serves c3_data for every path. -/
def c3_env : Env :=
  { yamllintInstalled := true, yamllintFails := false, yamllintOutput := "",
    bashReady := true, bashCheck := fun _ => none,
    pyCompile := fun _ => some ("invalid syntax", 1, 4),
    fs := fun _ => LoadOutcome.parsed (YVal.map c3_data) }

/-- A pwsh script whose fifth line is the unparenthesized double
Test-Path the specification scenario describes. -/
def c4_script : String :=
  "line1\nline2\nline3\nline4\nTest-Path $a -and Test-Path $b"

/-- The same script with each Test-Path call wrapped in parentheses. -/
def c4_script_wrapped : String :=
  "line1\nline2\nline3\nline4\n(Test-Path $a) -and (Test-Path $b)"

/-- A file system on which every path parses to an empty mapping. -/
def cleanFs : String → LoadOutcome := fun _ => LoadOutcome.parsed (YVal.map [])

/-- A healthy environment except that yamllint is not installed. -/
def c5_env : Env :=
  { yamllintInstalled := false, yamllintFails := false, yamllintOutput := "",
    bashReady := true, bashCheck := fun _ => none, pyCompile := fun _ => none,
    fs := cleanFs }

/-- A healthy environment except that bash is unavailable. -/
def c5w_env : Env :=
  { yamllintInstalled := true, yamllintFails := false, yamllintOutput := "",
    bashReady := false, bashCheck := fun _ => none, pyCompile := fun _ => none,
    fs := cleanFs }

/-- A release document whose on mapping lacks both the push trigger and
workflow_dispatch. -/
def c6_data : Ymap := [(YKey.str "on", YVal.map [])]

/-- A release document whose on mapping has a pull_request trigger and no
push trigger. -/
def c6w_data : Ymap :=
  [(YKey.str "on", YVal.map [(YKey.str "pull_request", YVal.null)])]

/-- A release document whose push trigger is present but is a scalar,
not a mapping, and which also lacks workflow_dispatch. -/
def c6w2_data : Ymap :=
  [(YKey.str "on", YVal.map [(YKey.str "push", YVal.str "tags")])]

/-- A release document whose build_package job has no steps at all, so
the signing gate step and all three named steps are absent. -/
def c7_data : Ymap :=
  [(YKey.str "jobs", YVal.map
     [(YKey.str "build_package", YVal.map
        [(YKey.str "steps", YVal.list [])])])]

/-- The gate step of c7w_data. -/
def c7w_gate : Ymap := [(YKey.str "id", YVal.str "mac_signing")]

/-- A release document whose build_package job has the mac_signing gate
step but none of the three gated steps. -/
def c7w_data : Ymap :=
  [(YKey.str "jobs", YVal.map
     [(YKey.str "build_package", YVal.map
        [(YKey.str "steps", YVal.list [YVal.map c7w_gate])])])]

/-- An environment whose file system serves an empty document (safe_load
returning None) for every path. -/
def c8_env : Env :=
  { yamllintInstalled := true, yamllintFails := false, yamllintOutput := "",
    bashReady := true, bashCheck := fun _ => none, pyCompile := fun _ => none,
    fs := fun _ => LoadOutcome.parsed YVal.null }

/-- A file system exercising each loader outcome on its own path. -/
def c8w_fs : String → LoadOutcome := fun p =>
  if p == "missing.yml" then LoadOutcome.missing
  else if p == "bad.yml" then LoadOutcome.parseError "err"
  else if p == "scalar.yml" then LoadOutcome.parsed (YVal.str "hi")
  else LoadOutcome.parsed YVal.null

/-- An otherwise healthy environment over c8w_fs. -/
def c8w_env : Env :=
  { yamllintInstalled := true, yamllintFails := false, yamllintOutput := "",
    bashReady := true, bashCheck := fun _ => none, pyCompile := fun _ => none,
    fs := c8w_fs }

/-- A fully healthy environment over the clean file system. -/
def c9_env : Env :=
  { yamllintInstalled := true, yamllintFails := false, yamllintOutput := "",
    bashReady := true, bashCheck := fun _ => none, pyCompile := fun _ => none,
    fs := cleanFs }

/-- A release document whose jobs value is a scalar, not a mapping. -/
def c10_data : Ymap := [(YKey.str "jobs", YVal.str "oops")]

theorem step_dialect_eq (data job step : Ymap) :
    step_dialect data job step = resolved_dialect data job step := by
  unfold step_dialect resolved_dialect job_default_dialect
  cases Ymap.get step "shell" with
  | none => cases read_run_default_shell job <;> rfl
  | some v => cases v <;> rfl

theorem extract_blocks_eq_spec :
    extract_job_run_blocks = extract_job_run_blocks_spec := by
  have h : step_dialect = resolved_dialect :=
    funext fun d => funext fun j => funext fun s => step_dialect_eq d j s
  unfold extract_job_run_blocks extract_job_run_blocks_spec
  rw [h]

/-- C1: for every workflow document, job and step with an inline run
script, the dialect recorded for that block follows the strict
precedence: normalized step-level shell string, else the job
defaults.run.shell string normalized, else the workflow
defaults.run.shell string normalized, else the shell inferred from the
runner labels of the job. -/
theorem dialect_precedence_strict :
    (∀ data job step : Ymap,
        step_dialect data job step = resolved_dialect data job step)
    ∧ extract_job_run_blocks = extract_job_run_blocks_spec :=
  ⟨step_dialect_eq, extract_blocks_eq_spec⟩

/-- C2 counterexample: the runs-on entry is an interpolation that is not
a single-placeholder matrix expression, yet runner inference classifies
it as pwsh rather than unknown, because the verbatim label contains the
substring windows. -/
theorem interp_label_classified_pwsh :
    matrixExprMatch (pyStrip "$\x7b\x7b inputs.windows_runner \x7d\x7d") = none
    ∧ resolve_runs_on_labels c2_job = ["$\x7b\x7b inputs.windows_runner \x7d\x7d"]
    ∧ infer_runner_default_shell c2_job = "pwsh" :=
  ⟨rfl, rfl, rfl⟩

/-- C2 amended: only a literal single-placeholder matrix expression is
expanded to matrix values; every other runs-on entry, interpolation or
not, is kept verbatim as a label and then classified by case-insensitive
substring matching (windows gives pwsh; ubuntu, linux or macos give
bash; anything else, unknown). -/
theorem interp_label_kept_verbatim (strategy : Option YVal) (s : String)
    (h : matrixExprMatch (pyStrip s) = none) :
    append_label strategy (some (YVal.str s)) = [s]
    ∧ shell_for_label s =
        (if containsSub "windows" (pyLower s) then "pwsh"
         else if containsSub "ubuntu" (pyLower s) || containsSub "linux" (pyLower s)
              || containsSub "macos" (pyLower s) then "bash"
         else "unknown") := by
  constructor
  · simp only [append_label, h]
  · rfl

theorem interp_label_kept_verbatim_witness :
    matrixExprMatch (pyStrip "$\x7b\x7b github.ref \x7d\x7d") = none
    ∧ (append_label none (some (YVal.str "$\x7b\x7b github.ref \x7d\x7d"))
         = ["$\x7b\x7b github.ref \x7d\x7d"]
       ∧ shell_for_label "$\x7b\x7b github.ref \x7d\x7d" =
           (if containsSub "windows" (pyLower "$\x7b\x7b github.ref \x7d\x7d")
            then "pwsh"
            else if containsSub "ubuntu" (pyLower "$\x7b\x7b github.ref \x7d\x7d")
                 || containsSub "linux" (pyLower "$\x7b\x7b github.ref \x7d\x7d")
                 || containsSub "macos" (pyLower "$\x7b\x7b github.ref \x7d\x7d")
                 then "bash"
            else "unknown")) :=
  ⟨rfl, interp_label_kept_verbatim none "$\x7b\x7b github.ref \x7d\x7d" rfl⟩

/-- C3 counterexample: the only run block of the document resolves to
pwsh and carries a python -c snippet the compiler rejects, yet the whole
validation of the document yields no diagnostics: the snippet check only
runs for blocks resolved to bash. -/
theorem python_c_skipped_for_pwsh :
    extract_job_run_blocks c3_data = [("jobs.win.steps[0]", "pwsh", c3_script)]
    ∧ pcFindAll c3_script = ["def"]
    ∧ c3_env.pyCompile "def" = some ("invalid syntax", 1, 4)
    ∧ validate_workflow_file c3_env "ci.yml" = [] := by
  exact ⟨by decide, by decide, rfl, by decide⟩

theorem bash_not_pwsh {shell : String} (h : is_bash_shell shell = true) :
    is_pwsh_shell shell = false := by
  unfold is_bash_shell at h
  unfold is_pwsh_shell
  rw [eq_of_beq h]
  rfl

theorem filterMap_filter_not {α : Type} (q : Diag → Bool) (f : α → Option Diag)
    (hf : ∀ a d, f a = some d → q d = false) :
    ∀ l : List α, (l.filterMap f).filter q = []
  | [] => rfl
  | a :: rest => by
    rw [List.filterMap_cons]
    cases hfa : f a with
    | none => exact filterMap_filter_not q f hf rest
    | some d =>
      rw [List.filter_cons, hf a d hfa]
      simp only [Bool.false_eq_true, if_false]
      exact filterMap_filter_not q f hf rest

theorem pwsh_traps_no_pythonC (script p : String) :
    (check_powershell_command_mode_traps script p).filter Diag.isPythonC = [] := by
  unfold check_powershell_command_mode_traps
  apply filterMap_filter_not
  intro il d hil
  by_cases hcase : psSearchAux none il.2.toList
  · rw [if_pos hcase] at hil
    cases hil
    rfl
  · rw [if_neg hcase] at hil
    cases hil

/-- C3 amended: the python -c compile check runs exactly for run blocks
whose dialect resolves to bash; for such a block each extracted snippet
the compiler rejects yields one diagnostic with the reported message,
line and column; blocks resolved to pwsh or unknown are never scanned
and so produce no python -c diagnostic. -/
theorem python_c_only_for_bash (env : Env) (p bp shell script : String) :
    (is_bash_shell shell = true →
       run_block_checks env p (bp, shell, script) =
         check_bash_syntax_errors env script (p ++ ":" ++ bp)
           ++ check_python_c_snippets env script (p ++ ":" ++ bp))
    ∧ (is_bash_shell shell = false →
       (run_block_checks env p (bp, shell, script)).filter Diag.isPythonC = [])
    ∧ check_python_c_snippets env script (p ++ ":" ++ bp) =
        (pcFindAll script).filterMap (fun code =>
          match env.pyCompile code with
          | some (msg, line, col) =>
            some (Diag.invalidPythonC (p ++ ":" ++ bp) msg line col)
          | none => none) := by
  refine ⟨?_, ?_, rfl⟩
  · intro h
    simp [run_block_checks, h, bash_not_pwsh h]
  · intro h
    cases hp : is_pwsh_shell shell with
    | false => simp [run_block_checks, h, hp]
    | true =>
      simp only [run_block_checks, h, hp]
      simp only [Bool.false_eq_true, if_false, if_true, List.nil_append]
      exact pwsh_traps_no_pythonC script (p ++ ":" ++ bp)

theorem python_c_only_for_bash_witness :
    (run_block_checks c3_env "ci.yml"
        ("jobs.win.steps[0]", "pwsh", c3_script)).filter Diag.isPythonC = [] :=
  (python_c_only_for_bash c3_env "ci.yml" "jobs.win.steps[0]" "pwsh" c3_script).2.1
    (by decide)

/-- C4: the specification scenario fails on the code.  A pwsh run block
whose fifth line is the unparenthesized Test-Path pair produces zero
diagnostics (the pattern demands a literal opening parenthesis after
each Test-Path, contradicting the advice in the message the check would
print); the call-wrapped form also produces zero; the form the pattern
does flag is an unwrapped Test-Path pair whose arguments are themselves
parenthesized. -/
theorem testpath_trap_not_flagged :
    check_powershell_command_mode_traps c4_script "w.yml:jobs.j.steps[4]" = []
    ∧ check_powershell_command_mode_traps c4_script_wrapped "w.yml:jobs.j.steps[4]" = []
    ∧ check_powershell_command_mode_traps
        "Test-Path ($a) -and Test-Path ($b)" "w.yml:jobs.j.steps[4]"
        = [Diag.powershellTrap "w.yml:jobs.j.steps[4]" 1] := by
  exact ⟨by decide, by decide, by decide⟩

/-- C5 counterexample: with yamllint not installed and a document set
that produces no other diagnostics, the not-installed message enters the
failure list and the process exits 1, not 0. -/
theorem yamllint_missing_fails_run :
    validate_workflow_file c5_env "ci.yml" = []
    ∧ main_failures c5_env ["ci.yml"] = [Diag.yamllintNotInstalled]
    ∧ main_exit c5_env ["ci.yml"] = 1 := by
  exact ⟨by decide, by decide, by decide⟩

theorem validate_all_nil (env : Env) :
    ∀ paths : List String,
      (∀ p, p ∈ paths → validate_workflow_file env p = []) →
      validate_all env paths = []
  | [], _ => rfl
  | p :: rest, h => by
    rw [validate_all, h p (by simp),
        validate_all_nil env rest (fun q hq => h q (by simp [hq]))]
    rfl

/-- C5 amended: only the bash checker degrades gracefully.  When bash is
unavailable the bash syntax check is skipped without producing a
diagnostic, and a run whose documents are otherwise clean exits 0; when
yamllint is not installed, the not-installed message joins the failure
list and the process exits 1 even if every document is clean. -/
theorem degrade_graceful_bash_only (env : Env) (paths : List String)
    (hne : paths ≠ []) :
    (env.bashReady = false → ∀ script p, check_bash_syntax_errors env script p = [])
    ∧ (env.yamllintInstalled = false → main_exit env paths = 1)
    ∧ (env.yamllintInstalled = true → env.yamllintFails = false →
        (∀ p, p ∈ paths → validate_workflow_file env p = []) →
        main_exit env paths = 0) := by
  refine ⟨?_, ?_, ?_⟩
  · intro h script p
    simp [check_bash_syntax_errors, h]
  · intro h
    cases paths with
    | nil => exact absurd rfl hne
    | cons q rest =>
      simp [main_exit, main_failures, run_yamllint, h]
  · intro h1 h2 hclean
    cases paths with
    | nil => exact absurd rfl hne
    | cons q rest =>
      simp [main_exit, main_failures, run_yamllint, h1, h2,
            validate_all_nil env (q :: rest) hclean]

theorem degrade_graceful_bash_only_witness :
    ((["ci.yml"] : List String) ≠ [])
    ∧ check_bash_syntax_errors c5w_env "echo hi" "p" = []
    ∧ main_exit c5w_env ["ci.yml"] = 0 :=
  ⟨by decide,
   (degrade_graceful_bash_only c5w_env ["ci.yml"] (by decide)).1 rfl "echo hi" "p",
   (degrade_graceful_bash_only c5w_env ["ci.yml"] (by decide)).2.2 rfl rfl
     (by
       intro p hp
       rw [List.mem_singleton] at hp
       subst hp
       decide)⟩

/-- C6 counterexample: a release document whose on mapping lacks both
the push trigger and workflow_dispatch receives only the push
diagnostic, and one whose push trigger is a non-mapping (and which also
lacks workflow_dispatch) receives only the push-must-be-mapping
diagnostic; both push branches stop the remaining trigger checks, so no
workflow_dispatch diagnostic is produced in either document. -/
theorem missing_push_stops_trigger_checks :
    validate_release_trigger_rules "release-gui.yml" c6_data
      = [Diag.mustDefinePushTag "release-gui.yml"]
    ∧ validate_release_trigger_rules "release-gui.yml" c6w2_data
      = [Diag.pushMustBeMapping "release-gui.yml"] := by
  exact ⟨by decide, by decide⟩

/-- C6 amended: a non-mapping on section gives exactly the one
root-cause diagnostic; the pull-request ban is its own diagnostic and
does not stop anything; a missing push trigger, and a push trigger
present but not mapping-shaped, each give their own diagnostic but stop
the tag and workflow_dispatch checks; with a mapping-shaped push trigger
the tag glob and workflow_dispatch clauses are each their own
independent diagnostic; and trigger diagnostics never stop the document
from proceeding through the job-shape checks. -/
theorem trigger_rules_characterization (p : String) (data : Ymap)
    (hname : pyPathName p = "release-gui.yml") :
    (∀ v, find_on_section data = some v → isMapVal (some v) = false →
        validate_release_trigger_rules p data = [Diag.expectedOnMapping p])
    ∧ (find_on_section data = none →
        validate_release_trigger_rules p data = [Diag.expectedOnMapping p])
    ∧ (∀ onSection, find_on_section data = some (YVal.map onSection) →
        hasStrKey onSection "push" = false →
        validate_release_trigger_rules p data =
          (if hasStrKey onSection "pull_request" then [Diag.noPullRequest p]
           else []) ++ [Diag.mustDefinePushTag p])
    ∧ (∀ onSection v, find_on_section data = some (YVal.map onSection) →
        Ymap.get onSection "push" = some v → isMapVal (some v) = false →
        validate_release_trigger_rules p data =
          (if hasStrKey onSection "pull_request" then [Diag.noPullRequest p]
           else []) ++ [Diag.pushMustBeMapping p])
    ∧ (∀ onSection pushSection, find_on_section data = some (YVal.map onSection) →
        Ymap.get onSection "push" = some (YVal.map pushSection) →
        validate_release_trigger_rules p data =
          (if hasStrKey onSection "pull_request" then [Diag.noPullRequest p]
           else [])
          ++ (match Ymap.get pushSection "tags" with
              | some (YVal.list tags) =>
                if tags.any (yvalIsStr "v*") then []
                else [Diag.pushTagsMustIncludeVStar p]
              | _ => [Diag.pushTagsMustIncludeVStar p])
          ++ (if hasStrKey onSection "workflow_dispatch" then []
              else [Diag.mustDefineWorkflowDispatch p]))
    ∧ (∀ env m, env.fs p = LoadOutcome.parsed (YVal.map m) →
        validate_workflow_file env p =
          validate_release_trigger_rules p m
          ++ validate_release_job_shape p m
          ++ validate_release_macos_signing_rules p m
          ++ concatMap (run_block_checks env p) (extract_job_run_blocks m)) := by
  refine ⟨?_, ?_, ?_, ?_, ?_, ?_⟩
  · intro v hv hm
    cases v <;> simp_all [validate_release_trigger_rules, hname, isMapVal]
  · intro hv
    simp [validate_release_trigger_rules, hname, hv]
  · intro onSection hv hpush
    simp [validate_release_trigger_rules, hname, hv, hpush]
  · intro onSection v hv hget hm
    have hpush : hasStrKey onSection "push" = true := by
      unfold hasStrKey
      rw [hget]
      rfl
    cases v <;> simp_all [validate_release_trigger_rules, hname, isMapVal]
  · intro onSection pushSection hv hget
    have hpush : hasStrKey onSection "push" = true := by
      unfold hasStrKey
      rw [hget]
      rfl
    simp [validate_release_trigger_rules, hname, hv, hpush, hget]
  · intro env m hfs
    simp [validate_workflow_file, load_yaml, hfs]

theorem trigger_rules_characterization_witness :
    (validate_release_trigger_rules "release-gui.yml" c6w_data =
      (if hasStrKey [(YKey.str "pull_request", YVal.null)] "pull_request"
       then [Diag.noPullRequest "release-gui.yml"] else [])
        ++ [Diag.mustDefinePushTag "release-gui.yml"])
    ∧ validate_release_trigger_rules "release-gui.yml" c6w2_data =
        (if hasStrKey [(YKey.str "push", YVal.str "tags")] "pull_request"
         then [Diag.noPullRequest "release-gui.yml"] else [])
          ++ [Diag.pushMustBeMapping "release-gui.yml"] :=
  ⟨(trigger_rules_characterization "release-gui.yml" c6w_data (by decide)).2.2.1
     [(YKey.str "pull_request", YVal.null)] rfl rfl,
   (trigger_rules_characterization "release-gui.yml" c6w2_data (by decide)).2.2.2.1
     [(YKey.str "push", YVal.str "tags")] (YVal.str "tags") rfl rfl rfl⟩

/-- C7 counterexample: when the mac_signing gate step is absent the
validator returns exactly that one diagnostic; the three named-step
checks do not run, so the missing signing, collect and upload steps of
this document are not reported. -/
theorem missing_gate_stops_signing_checks :
    validate_release_macos_signing_rules "release-gui.yml" c7_data
      = [Diag.missingMacSigningGate "release-gui.yml"] := by decide

/-- C7 amended: the absence of the gate step short-circuits the macOS
signing validator to that single diagnostic; only when the gate step is
present are the signing step and the two asset steps each checked
independently, one diagnostic per missing or mis-gated step. -/
theorem signing_rules_characterization (p : String) (data jobs buildJob : Ymap)
    (hname : pyPathName p = "release-gui.yml")
    (hjobs : Ymap.get data "jobs" = some (YVal.map jobs))
    (hbuild : Ymap.get jobs "build_package" = some (YVal.map buildJob)) :
    (find_step_by_id buildJob "mac_signing" = none →
        validate_release_macos_signing_rules p data
          = [Diag.missingMacSigningGate p])
    ∧ (∀ gate, find_step_by_id buildJob "mac_signing" = some gate →
        validate_release_macos_signing_rules p data =
          sign_step_errors p buildJob
          ++ named_step_errors p buildJob "Collect release assets"
          ++ named_step_errors p buildJob "Upload release assets") := by
  constructor
  · intro h
    simp [validate_release_macos_signing_rules, hname, hjobs, hbuild, h]
  · intro gate h
    simp [validate_release_macos_signing_rules, hname, hjobs, hbuild, h]

theorem signing_rules_characterization_witness :
    validate_release_macos_signing_rules "release-gui.yml" c7w_data =
      sign_step_errors "release-gui.yml"
        [(YKey.str "steps", YVal.list [YVal.map c7w_gate])]
      ++ named_step_errors "release-gui.yml"
          [(YKey.str "steps", YVal.list [YVal.map c7w_gate])]
          "Collect release assets"
      ++ named_step_errors "release-gui.yml"
          [(YKey.str "steps", YVal.list [YVal.map c7w_gate])]
          "Upload release assets" :=
  (signing_rules_characterization "release-gui.yml" c7w_data
      [(YKey.str "build_package",
        YVal.map [(YKey.str "steps", YVal.list [YVal.map c7w_gate])])]
      [(YKey.str "steps", YVal.list [YVal.map c7w_gate])]
      (by decide) rfl rfl).2 c7w_gate rfl

/-- C8 counterexample: an absent root (safe_load returning None for an
empty document) is loaded as an empty mapping with no diagnostic, not as
one diagnostic with a none tree. -/
theorem absent_root_no_diagnostic :
    load_yaml c8_env "w.yml" = (some [], []) := rfl

/-- C8 amended: a missing file, a parse error, and a non-mapping
non-null root each produce exactly one diagnostic and a none tree; an
absent root yields an empty mapping and no diagnostic; whenever the tree
is none the driver returns only the loader diagnostics for that
document, and documents are processed independently one after another. -/
theorem loader_fails_softly (env : Env) (p : String) :
    (env.fs p = LoadOutcome.missing →
        load_yaml env p = (none, [Diag.fileDoesNotExist p]))
    ∧ (∀ msg, env.fs p = LoadOutcome.parseError msg →
        load_yaml env p = (none, [Diag.yamlParseError p msg]))
    ∧ (∀ v, env.fs p = LoadOutcome.parsed v → isMapVal (some v) = false →
        v ≠ YVal.null →
        load_yaml env p = (none, [Diag.expectedMappingAtRoot p]))
    ∧ (env.fs p = LoadOutcome.parsed YVal.null →
        load_yaml env p = (some [], []))
    ∧ ((load_yaml env p).1 = none →
        validate_workflow_file env p = (load_yaml env p).2)
    ∧ (∀ paths, validate_all env paths
          = concatMap (validate_workflow_file env) paths) := by
  refine ⟨?_, ?_, ?_, ?_, ?_, ?_⟩
  · intro h
    simp [load_yaml, h]
  · intro msg h
    simp [load_yaml, h]
  · intro v h hm hn
    cases v <;> simp_all [load_yaml, isMapVal]
  · intro h
    simp [load_yaml, h]
  · intro h1
    unfold validate_workflow_file
    cases hl : load_yaml env p with
    | mk t errs =>
      rw [hl] at h1
      simp at h1
      subst h1
      rfl
  · intro paths
    induction paths with
    | nil => rfl
    | cons q rest ih => rw [validate_all, concatMap, ih]

theorem loader_fails_softly_witness :
    load_yaml c8w_env "missing.yml"
        = (none, [Diag.fileDoesNotExist "missing.yml"])
    ∧ load_yaml c8w_env "bad.yml" = (none, [Diag.yamlParseError "bad.yml" "err"])
    ∧ load_yaml c8w_env "scalar.yml"
        = (none, [Diag.expectedMappingAtRoot "scalar.yml"])
    ∧ validate_workflow_file c8w_env "missing.yml"
        = (load_yaml c8w_env "missing.yml").2 :=
  ⟨(loader_fails_softly c8w_env "missing.yml").1 rfl,
   (loader_fails_softly c8w_env "bad.yml").2.1 "err" rfl,
   (loader_fails_softly c8w_env "scalar.yml").2.2.1 (YVal.str "hi") rfl rfl
     (fun h => YVal.noConfusion h),
   (loader_fails_softly c8w_env "missing.yml").2.2.2.2.1 rfl⟩

/-- C9: the exit status is exactly 2 when no workflow paths were
discovered, 1 when the failure list accumulated from the yamllint
invocation and all documents is non-empty, and 0 when paths were
discovered and that list is empty. -/
theorem exit_status_trichotomy (env : Env) (paths : List String) :
    (paths = [] → main_exit env paths = 2)
    ∧ (paths ≠ [] →
        ((main_exit env paths = 1 ↔ main_failures env paths ≠ [])
         ∧ (main_exit env paths = 0 ↔ main_failures env paths = []))) := by
  constructor
  · intro h
    subst h
    rfl
  · intro hne
    have hpe : paths.isEmpty = false := by
      cases paths with
      | nil => exact absurd rfl hne
      | cons a l => rfl
    cases hf : main_failures env paths with
    | nil => simp [main_exit, hpe, hf]
    | cons d rest => simp [main_exit, hpe, hf]

theorem exit_status_trichotomy_witness :
    main_exit c9_env [] = 2
    ∧ (main_exit c9_env ["ci.yml"] = 0 ↔ main_failures c9_env ["ci.yml"] = []) :=
  ⟨(exit_status_trichotomy c9_env []).1 rfl,
   ((exit_status_trichotomy c9_env ["ci.yml"]).2 (by decide)).2⟩

theorem hasStrKey_some {m : Ymap} {k : String} (h : hasStrKey m k = true) :
    ∃ v, Ymap.get m k = some v := by
  unfold hasStrKey at h
  cases hg : Ymap.get m k with
  | none => rw [hg] at h; cases h
  | some v => exact ⟨v, rfl⟩

/-- C10: when the jobs value of the release document is not a mapping,
or its build_package job is not a mapping, the macOS signing validator
returns zero diagnostics, while the job-shape validator does report the
malformed shape. -/
theorem signing_skips_malformed_shapes (p : String) (data : Ymap)
    (hname : pyPathName p = "release-gui.yml") :
    (isMapVal (Ymap.get data "jobs") = false →
        validate_release_macos_signing_rules p data = []
        ∧ validate_release_job_shape p data = [Diag.expectedJobsMapping p])
    ∧ (∀ jobs, Ymap.get data "jobs" = some (YVal.map jobs) →
        isMapVal (Ymap.get jobs "build_package") = false →
        validate_release_macos_signing_rules p data = []
        ∧ validate_release_job_shape p data ≠ []) := by
  constructor
  · intro h
    cases hj : Ymap.get data "jobs" with
    | none =>
      exact ⟨by simp [validate_release_macos_signing_rules, hname, hj],
             by simp [validate_release_job_shape, hname, hj]⟩
    | some v =>
      cases v <;> simp_all [validate_release_macos_signing_rules,
                            validate_release_job_shape, hname, isMapVal]
  · intro jobs hj hb
    constructor
    · cases hbp : Ymap.get jobs "build_package" with
      | none => simp [validate_release_macos_signing_rules, hname, hj, hbp]
      | some v =>
        cases v <;> simp_all [validate_release_macos_signing_rules, hname, isMapVal]
    · cases hk : hasStrKey jobs "build_package" with
      | false =>
        simp [validate_release_job_shape, hname, hj, requiredReleaseJobs,
              List.filter_cons, hk]
      | true =>
        obtain ⟨v, hv⟩ := hasStrKey_some hk
        rw [hv] at hb
        have hbuild_err : build_job_errors p jobs = [Diag.buildMustBeMapping p] := by
          cases v <;> simp_all [build_job_errors, isMapVal, hv]
        cases hm : (requiredReleaseJobs.filter (fun j => !hasStrKey jobs j)).isEmpty with
        | false => simp [validate_release_job_shape, hname, hj, hm]
        | true => simp [validate_release_job_shape, hname, hj, hm, hbuild_err]

theorem signing_skips_malformed_shapes_witness :
    validate_release_macos_signing_rules "release-gui.yml" c10_data = []
    ∧ validate_release_job_shape "release-gui.yml" c10_data
        = [Diag.expectedJobsMapping "release-gui.yml"] :=
  (signing_skips_malformed_shapes "release-gui.yml" c10_data (by decide)).1 rfl
